import Mathlib

/-!
Shallow embedding of the n2yoapi repository (src/app.py): configuration
resolution from environment variables, the N2YO satellite API client with
its failure descriptors, the HTML report formatter, the SMTP notifier
guard, and the entry-point orchestration.  Python values that matter to
the program (None, str, int) are modelled by the type PyVal; JSON-shaped
values by JValue; the HTTP and SMTP transports are modelled as oracles
describing the outcome the external world would produce.
-/

/-- Model of the Python values a configuration setting can hold:
None, a string, or an integer. -/
inductive PyVal where
  | vNone : PyVal
  | vStr : String → PyVal
  | vInt : Int → PyVal

/-- Python truthiness on PyVal: None is falsy, a string is truthy iff
non-empty, an integer is truthy iff non-zero. -/
def pvTruthy : PyVal → Bool
  | PyVal.vNone => false
  | PyVal.vStr s => s ≠ ""
  | PyVal.vInt i => i ≠ 0

/-- Model of Python int(str): strip surrounding whitespace, accept an
optional sign followed by a non-empty run of decimal digits. -/
def pyParseInt (s : String) : Option Int :=
  match (s.trim).data with
  | [] => none
  | c :: cs =>
    let signed : Bool × List Char :=
      if c = Char.ofNat 45 then (true, cs)
      else if c = Char.ofNat 43 then (false, cs)
      else (false, c :: cs)
    if signed.2 ≠ [] ∧ signed.2.all Char.isDigit then
      let n : Nat := signed.2.foldl (fun acc d => acc * 10 + (d.toNat - 48)) 0
      some (if signed.1 then -(n : Int) else (n : Int))
    else none

/-- Embedding of get_config_value (src/app.py lines 10-23): read the
upper-cased key from the process environment; if absent return the
default; if is_int is set, parse the raw value as an integer and fall
back to the default when parsing fails. -/
def get_config_value (env : String → Option String) (key_name : String)
    (default : PyVal) (is_int : Bool) : PyVal :=
  match env key_name.toUpper with
  | none => default
  | some value =>
    if is_int then
      match pyParseInt value with
      | some i => PyVal.vInt i
      | none => default
    else PyVal.vStr value

/-- Coercion step of the spec-level ConfigResolver: when coerceInt is set,
a raw value that parses becomes an integer and one that does not parse
falls back to the default; otherwise the raw string is returned. -/
def coerceValue (raw : String) (default : PyVal) (coerceInt : Bool) : PyVal :=
  if coerceInt then
    match pyParseInt raw with
    | some i => PyVal.vInt i
    | none => default
  else PyVal.vStr raw

/-- Lookup of a name in the optional local file-based settings source:
none when the source was not loaded or the name is absent there. -/
def fileLookup (fsrc : Option (String → Option String)) (name : String) :
    Option String :=
  match fsrc with
  | some f => f name
  | none => none

/-- Modelled from the spec: the file-first configuration-loading variant of
the repository is not under src/ (only the env-only variant
get_config_value is).  Per spec 4.1, resolution looks the name up in the
local file-based settings source if loaded, then the upper-cased name in
the process environment, and otherwise returns the default unmodified. -/
def resolve (fsrc : Option (String → Option String))
    (env : String → Option String) (name : String) (default : PyVal)
    (coerceInt : Bool) : PyVal :=
  match fileLookup fsrc name with
  | some raw => coerceValue raw default coerceInt
  | none =>
    match env name.toUpper with
    | some raw => coerceValue raw default coerceInt
    | none => default

/-- JSON-shaped values: the payloads returned by the remote API and the
failure descriptors built by fetch_api_data. -/
inductive JValue where
  | jnull : JValue
  | jbool : Bool → JValue
  | jnum : Int → JValue
  | jstr : String → JValue
  | jarr : List JValue → JValue
  | jobj : List (String × JValue) → JValue

/-- Python truthiness of a JSON-shaped value: None, False, 0, the empty
string, the empty list and the empty dict are falsy. -/
def jtruthy : JValue → Bool
  | JValue.jnull => false
  | JValue.jbool b => b
  | JValue.jnum i => i ≠ 0
  | JValue.jstr s => s ≠ ""
  | JValue.jarr xs => ¬ xs.isEmpty
  | JValue.jobj fs => ¬ fs.isEmpty

/-- First-match lookup of a key in a dict's field list. -/
def lookupKey : List (String × JValue) → String → Option JValue
  | [], _ => none
  | (k, v) :: rest, key => if k = key then some v else lookupKey rest key

/-- Python membership test key in dict. -/
def hasKey (fields : List (String × JValue)) (key : String) : Bool :=
  (lookupKey fields key).isSome

/-- Subscript data[key] used only under a hasKey guard in the source. -/
def jget (fields : List (String × JValue)) (key : String) : JValue :=
  (lookupKey fields key).getD JValue.jnull

/-- Interpolation of a configuration value into an f-string
(Python str() of None, str or int). -/
def pyStrVal : PyVal → String
  | PyVal.vNone => "None"
  | PyVal.vStr s => s
  | PyVal.vInt i => toString i

/-- Base URL of the remote satellite API (src/app.py line 35). -/
def BASE_URL : String := "https://api.n2yo.com/rest/v1/satellite/"

/-- Outcome of the single GET request performed by fetch_api_data, as the
transport oracle reports it: a requests.exceptions.RequestException
(connection error, timeout, or non-2xx status surfaced by
raise_for_status), a body that fails JSON decoding, or a decoded
payload. -/
inductive HttpOutcome where
  | reqError : String → HttpOutcome
  | parseError : String → String → HttpOutcome
  | success : JValue → HttpOutcome

/-- Result of one call to fetch_api_data together with the number of GET
requests it performed on the transport. -/
structure FetchOut where
  result : JValue
  getCalls : Nat

/-- Fully composed request URL of src/app.py line 52: base URL, endpoint
path, and the apiKey query parameter. -/
def full_url (apiKey : PyVal) (endpoint_url : String) : String :=
  BASE_URL ++ endpoint_url ++ "&apiKey=" ++ pyStrVal apiKey

/-- Embedding of fetch_api_data (src/app.py lines 47-60): with a falsy API
key, return the not-configured failure descriptor without touching the
transport; otherwise perform one GET on the fully composed URL and map a
RequestException to an error/url descriptor, a JSON decode failure to an
error/content/url descriptor, and a decoded body to itself. -/
def fetch_api_data (apiKey : PyVal) (http : String → HttpOutcome)
    (endpoint_url : String) : FetchOut :=
  if ¬ pvTruthy apiKey then
    ⟨JValue.jobj [("error", JValue.jstr "N2YO_API_KEY is not configured."),
                  ("url", JValue.jstr endpoint_url)], 0⟩
  else
    match http (full_url apiKey endpoint_url) with
    | HttpOutcome.reqError msg =>
      ⟨JValue.jobj [("error", JValue.jstr msg),
                    ("url", JValue.jstr (full_url apiKey endpoint_url))], 1⟩
    | HttpOutcome.parseError msg text =>
      ⟨JValue.jobj [("error", JValue.jstr ("JSON Decode Error: " ++ msg)),
                    ("content", JValue.jstr text),
                    ("url", JValue.jstr (full_url apiKey endpoint_url))], 1⟩
    | HttpOutcome.success payload => ⟨payload, 1⟩

/-- Embedding of get_tle_data (src/app.py line 63). -/
def get_tle_data (apiKey : PyVal) (http : String → HttpOutcome)
    (sat_id : Int) : FetchOut :=
  fetch_api_data apiKey http ("tle/" ++ toString sat_id)

/-- Embedding of get_positions_data (src/app.py line 68); latitude and
longitude are floats in the source and appear only interpolated into the
URL, so they are carried as their decimal renderings. -/
def get_positions_data (apiKey : PyVal) (http : String → HttpOutcome)
    (sat_id : Int) (lat lng : String) (alt seconds : Int) : FetchOut :=
  fetch_api_data apiKey http
    ("positions/" ++ toString sat_id ++ "/" ++ lat ++ "/" ++ lng ++ "/" ++
      toString alt ++ "/" ++ toString seconds ++ "/")

/-- Embedding of get_visual_passes_data (src/app.py line 73). -/
def get_visual_passes_data (apiKey : PyVal) (http : String → HttpOutcome)
    (sat_id : Int) (lat lng : String) (alt days min_visibility : Int) :
    FetchOut :=
  fetch_api_data apiKey http
    ("visualpasses/" ++ toString sat_id ++ "/" ++ lat ++ "/" ++ lng ++ "/" ++
      toString alt ++ "/" ++ toString days ++ "/" ++
      toString min_visibility ++ "/")

/-- Embedding of get_radio_passes_data (src/app.py line 78). -/
def get_radio_passes_data (apiKey : PyVal) (http : String → HttpOutcome)
    (sat_id : Int) (lat lng : String) (alt days min_elevation : Int) :
    FetchOut :=
  fetch_api_data apiKey http
    ("radiopasses/" ++ toString sat_id ++ "/" ++ lat ++ "/" ++ lng ++ "/" ++
      toString alt ++ "/" ++ toString days ++ "/" ++
      toString min_elevation ++ "/")

/-- Embedding of get_whats_up_data (src/app.py line 83). -/
def get_whats_up_data (apiKey : PyVal) (http : String → HttpOutcome)
    (lat lng : String) (alt search_radius category_id : Int) : FetchOut :=
  fetch_api_data apiKey http
    ("above/" ++ lat ++ "/" ++ lng ++ "/" ++ toString alt ++ "/" ++
      toString search_radius ++ "/" ++ toString category_id ++ "/")

/-- Hexadecimal digit character, lowercase. -/
def hexDigit (n : Nat) : Char :=
  if n < 10 then Char.ofNat (48 + n) else Char.ofNat (87 + n)

/-- Four-digit lowercase hexadecimal rendering, as in a JSON escape. -/
def toHex4 (n : Nat) : String :=
  String.mk [hexDigit (n / 4096 % 16), hexDigit (n / 256 % 16),
             hexDigit (n / 16 % 16), hexDigit (n % 16)]

/-- Two-digit lowercase hexadecimal rendering, as in a Python repr escape. -/
def toHex2 (n : Nat) : String :=
  String.mk [hexDigit (n / 16 % 16), hexDigit (n % 16)]

/-- Escaping of one character by the CPython json encoder with the default
ensure_ascii: printable ASCII other than quote and backslash is kept, the
seven short escapes are used where defined, everything else becomes a
Unicode escape (a surrogate pair above the basic plane). -/
def jsonEscapeChar (c : Char) : String :=
  if c = Char.ofNat 92 then "\\\\"
  else if c = Char.ofNat 34 then "\\\""
  else if c = Char.ofNat 8 then "\\b"
  else if c = Char.ofNat 12 then "\\f"
  else if c = Char.ofNat 10 then "\\n"
  else if c = Char.ofNat 13 then "\\r"
  else if c = Char.ofNat 9 then "\\t"
  else if 32 ≤ c.toNat ∧ c.toNat ≤ 126 then String.mk [c]
  else if c.toNat < 65536 then "\\u" ++ toHex4 c.toNat
  else
    "\\u" ++ toHex4 (55296 + (c.toNat - 65536) / 1024) ++
    "\\u" ++ toHex4 (56320 + (c.toNat - 65536) % 1024)

/-- JSON rendering of a string, double-quoted and escaped. -/
def jsonEncodeString (s : String) : String :=
  "\"" ++ String.join (s.data.map jsonEscapeChar) ++ "\""

/-- Indentation produced by json.dumps at indent=2 for a nesting level. -/
def jIndent (lvl : Nat) : String :=
  String.mk (List.replicate (2 * lvl) (Char.ofNat 32))

mutual

/-- Model of json.dumps(value, indent=2) at a given nesting level, as the
CPython encoder lays it out: empty containers stay on one line, items of a
non-empty container each start on a fresh line indented two spaces deeper,
separated by commas, and the closing bracket returns to the outer
indentation. -/
def jdump (lvl : Nat) : JValue → String
  | JValue.jnull => "null"
  | JValue.jbool true => "true"
  | JValue.jbool false => "false"
  | JValue.jnum i => toString i
  | JValue.jstr s => jsonEncodeString s
  | JValue.jarr [] => "[]"
  | JValue.jarr (x :: xs) =>
    "[\n" ++ jIndent (lvl + 1) ++
    String.intercalate (",\n" ++ jIndent (lvl + 1)) (jdumpList (lvl + 1) (x :: xs)) ++
    "\n" ++ jIndent lvl ++ "]"
  | JValue.jobj [] => "\x7b\x7d"
  | JValue.jobj (p :: ps) =>
    "\x7b\n" ++ jIndent (lvl + 1) ++
    String.intercalate (",\n" ++ jIndent (lvl + 1)) (jdumpFields (lvl + 1) (p :: ps)) ++
    "\n" ++ jIndent lvl ++ "\x7d"

/-- Renderings of the items of a JSON array. -/
def jdumpList (lvl : Nat) : List JValue → List String
  | [] => []
  | x :: xs => jdump lvl x :: jdumpList lvl xs

/-- Renderings of the key-value pairs of a JSON object. -/
def jdumpFields (lvl : Nat) : List (String × JValue) → List String
  | [] => []
  | (k, v) :: ps => (jsonEncodeString k ++ ": " ++ jdump lvl v) :: jdumpFields lvl ps

end

/-- json.dumps(data, indent=2) as called on src/app.py line 146. -/
def json_dumps_i2 (v : JValue) : String := jdump 0 v

/-- Escaping of one character inside a Python repr of a string: backslash
and the chosen quote are escaped, newline, carriage return and tab use
short escapes, other ASCII control characters use hexadecimal escapes. -/
def pyReprEscapeChar (quote : Char) (c : Char) : String :=
  if c = Char.ofNat 92 then "\\\\"
  else if c = quote then "\\" ++ String.mk [quote]
  else if c = Char.ofNat 10 then "\\n"
  else if c = Char.ofNat 13 then "\\r"
  else if c = Char.ofNat 9 then "\\t"
  else if c.toNat < 32 ∨ c.toNat = 127 then "\\x" ++ toHex2 c.toNat
  else String.mk [c]

/-- Python repr of a string: single-quoted, except that a string holding a
single quote and no double quote is double-quoted. -/
def pyReprStr (s : String) : String :=
  let quote : Char :=
    if s.contains (Char.ofNat 39) ∧ ¬ s.contains (Char.ofNat 34) then
      Char.ofNat 34
    else Char.ofNat 39
  String.mk [quote] ++ String.join (s.data.map (pyReprEscapeChar quote)) ++
    String.mk [quote]

mutual

/-- Python repr of a JSON-shaped value. -/
def pyRepr : JValue → String
  | JValue.jnull => "None"
  | JValue.jbool true => "True"
  | JValue.jbool false => "False"
  | JValue.jnum i => toString i
  | JValue.jstr s => pyReprStr s
  | JValue.jarr xs => "[" ++ String.intercalate ", " (pyReprList xs) ++ "]"
  | JValue.jobj fs => "\x7b" ++ String.intercalate ", " (pyReprFields fs) ++ "\x7d"

/-- Python reprs of the items of a list. -/
def pyReprList : List JValue → List String
  | [] => []
  | x :: xs => pyRepr x :: pyReprList xs

/-- Python reprs of the key-value pairs of a dict. -/
def pyReprFields : List (String × JValue) → List String
  | [] => []
  | (k, v) :: ps => (pyReprStr k ++ ": " ++ pyRepr v) :: pyReprFields ps

end

/-- Python str() of a JSON-shaped value, as an f-string interpolates it: a
string is taken verbatim, everything else renders as its repr. -/
def pyStr : JValue → String
  | JValue.jstr s => s
  | v => pyRepr v

/-- Test of src/app.py line 139: the value is a dict containing the key
error. -/
def errKeyed : JValue → Bool
  | JValue.jobj fs => hasKey fs "error"
  | _ => false

/-- Field list of a dict value (the guarded branch only reaches dicts). -/
def objFields : JValue → List (String × JValue)
  | JValue.jobj fs => fs
  | _ => []

/-- Failure-branch body of one report section (src/app.py lines 140-144):
the red error paragraph, then a URL paragraph only when the descriptor has
a url field, then a content paragraph only when it has a content field. -/
def failureBody (fields : List (String × JValue)) : String :=
  "<p class=\x27error\x27>Error fetching data: " ++ pyStr (jget fields "error") ++
    "</p>" ++
  (match lookupKey fields "url" with
   | some u => "<p>URL: " ++ pyStr u ++ "</p>"
   | none => "") ++
  (match lookupKey fields "content" with
   | some c => "<p>Content: <pre>" ++ pyStr c ++ "</pre></p>"
   | none => "")

/-- Body emitted for one section value (src/app.py lines 139-148): the
failure branch for a dict holding an error key, the pretty-printed payload
for a truthy value, and the fixed placeholder otherwise. -/
def sectionBody (data : JValue) : String :=
  if errKeyed data then failureBody (objFields data)
  else if jtruthy data then "<pre>" ++ json_dumps_i2 data ++ "</pre>"
  else "<p>No data received or an unknown error occurred.</p>"

/-- One iteration of the rendering loop (src/app.py lines 137-148): the
subsection heading, then the section body. -/
def format_section (title : String) (data : JValue) : String :=
  "<h2>" ++ title ++ "</h2>" ++ sectionBody data

/-- Concatenation of the rendered sections in report order. -/
def joinSections : List (String × JValue) → String
  | [] => ""
  | (t, d) :: rest => format_section t d ++ joinSections rest

/-- Fixed style block and document opening of src/app.py lines 129-134. -/
def htmlStyle : String :=
  "<html><head><style>" ++
  "body \x7bfont-family: sans-serif; margin: 20px;\x7d " ++
  "h1 \x7bcolor: #333;\x7d h2 \x7bcolor: #555; border-bottom: 1px solid #eee; padding-bottom: 5px;\x7d " ++
  "pre \x7bbackground-color: #f4f4f4; padding: 10px; border-radius: 5px; overflow-x: auto;\x7d " ++
  ".error \x7bcolor: red; font-weight: bold;\x7d" ++
  "</style></head><body>"

/-- Report heading of src/app.py line 135; now stands for the formatted
UTC timestamp the source interpolates. -/
def h1Heading (now : String) : String :=
  "<h1>N2YO API Daily Report - " ++ now ++ "</h1>"

/-- Embedding of format_data_as_html (src/app.py lines 127-151): the style
block, the timestamped heading, every section in report order, and the
closing tags. -/
def format_data_as_html (now : String)
    (data_dict : List (String × JValue)) : String :=
  htmlStyle ++ h1Heading now ++ joinSections data_dict ++ "</body></html>"

/-- Outcome of the SMTP session as the mail transport oracle reports it:
clean hand-off, an authentication failure, another SMTP-level failure, or
any other exception during connect, TLS, login or send. -/
inductive SmtpOutcome where
  | ok : SmtpOutcome
  | authError : String → SmtpOutcome
  | smtpError : String → SmtpOutcome
  | otherError : String → SmtpOutcome

/-- Result of one call to send_email together with whether a connection to
the mail transport was attempted. -/
structure SendOut where
  result : Bool
  connectionAttempted : Bool

/-- Embedding of send_email (src/app.py lines 88-124): the guard of line
90 checks the six values receiver, sender, server, port, username and
password for truthiness and returns False without touching the transport
when any is falsy; otherwise one SMTP session is attempted, True is
returned on a clean hand-off, and every caught exception yields False. -/
def send_email (subject body_html receiver_email sender_email smtp_server
    smtp_port smtp_username smtp_password : PyVal)
    (smtp : SmtpOutcome) : SendOut :=
  if ¬ (pvTruthy receiver_email ∧ pvTruthy sender_email ∧
        pvTruthy smtp_server ∧ pvTruthy smtp_port ∧
        pvTruthy smtp_username ∧ pvTruthy smtp_password) then
    ⟨false, false⟩
  else
    match subject, body_html, smtp with
    | _, _, SmtpOutcome.ok => ⟨true, true⟩
    | _, _, SmtpOutcome.authError _ => ⟨false, true⟩
    | _, _, SmtpOutcome.smtpError _ => ⟨false, true⟩
    | _, _, SmtpOutcome.otherError _ => ⟨false, true⟩

/-- Fixed API call parameters of src/app.py lines 36-44; the float-valued
observer coordinates appear only interpolated into URLs and are carried as
their Python decimal renderings. -/
def ISS_NORAD_ID : Int := 25544

/-- Observer latitude 40.7128 as Python renders it. -/
def OBSERVER_LAT : String := "40.7128"

/-- Observer longitude -74.0060 as Python renders it. -/
def OBSERVER_LNG : String := "-74.006"

/-- Observer altitude (src/app.py line 39). -/
def OBSERVER_ALT : Int := 10

/-- Pass-prediction window in days (src/app.py line 40). -/
def PASS_DAYS : Int := 2

/-- Minimum visibility in seconds (src/app.py line 41). -/
def MIN_VISIBILITY_SECONDS : Int := 300

/-- Minimum elevation in degrees (src/app.py line 42). -/
def MIN_ELEVATION_DEGREES : Int := 40

/-- Search radius in degrees (src/app.py line 43). -/
def SEARCH_RADIUS_DEGREES : Int := 70

/-- Category identifier, 0 for all categories (src/app.py line 44). -/
def CATEGORY_ID : Int := 0

/-- Module-level resolution of N2YO_API_KEY (src/app.py line 26). -/
def cfg_N2YO_API_KEY (env : String → Option String) : PyVal :=
  get_config_value env "N2YO_API_KEY" PyVal.vNone false

/-- Module-level resolution of SMTP_SERVER (src/app.py line 27). -/
def cfg_SMTP_SERVER (env : String → Option String) : PyVal :=
  get_config_value env "SMTP_SERVER" PyVal.vNone false

/-- Module-level resolution of SMTP_PORT (src/app.py line 28). -/
def cfg_SMTP_PORT (env : String → Option String) : PyVal :=
  get_config_value env "SMTP_PORT" (PyVal.vInt 587) true

/-- Module-level resolution of SMTP_USERNAME (src/app.py line 29). -/
def cfg_SMTP_USERNAME (env : String → Option String) : PyVal :=
  get_config_value env "SMTP_USERNAME" PyVal.vNone false

/-- Module-level resolution of SMTP_PASSWORD (src/app.py line 30). -/
def cfg_SMTP_PASSWORD (env : String → Option String) : PyVal :=
  get_config_value env "SMTP_PASSWORD" PyVal.vNone false

/-- Module-level resolution of SENDER_EMAIL, defaulting to the resolved
SMTP_USERNAME (src/app.py line 31). -/
def cfg_SENDER_EMAIL (env : String → Option String) : PyVal :=
  get_config_value env "SENDER_EMAIL" (cfg_SMTP_USERNAME env) false

/-- Module-level resolution of RECEIVER_EMAIL (src/app.py line 32). -/
def cfg_RECEIVER_EMAIL (env : String → Option String) : PyVal :=
  get_config_value env "RECEIVER_EMAIL" PyVal.vNone false

/-- Mandatory configuration missing, as the three entry-point checks of
src/app.py lines 158-168 test it: a falsy API key, a falsy recipient, or
any falsy value among the four SMTP settings. -/
def configMissing (env : String → Option String) : Bool :=
  (!pvTruthy (cfg_N2YO_API_KEY env)) || (!pvTruthy (cfg_RECEIVER_EMAIL env)) ||
  (!(pvTruthy (cfg_SMTP_SERVER env) && pvTruthy (cfg_SMTP_PORT env) &&
     pvTruthy (cfg_SMTP_USERNAME env) && pvTruthy (cfg_SMTP_PASSWORD env)))

/-- Fatal diagnostic printed by the first entry-point check
(src/app.py line 159). -/
def fatalMsgApiKey : String :=
  "Error: N2YO_API_KEY is not configured. Please set it in GitHub secrets."

/-- Fatal diagnostic printed by the second entry-point check
(src/app.py line 163). -/
def fatalMsgReceiver : String :=
  "Error: RECEIVER_EMAIL is not configured. Please set it in GitHub secrets."

/-- Fatal diagnostic printed by the third entry-point check
(src/app.py line 167). -/
def fatalMsgSmtp : String :=
  "Error: SMTP configuration (server, port, username, or password) is missing. Please set them in GitHub secrets."

/-- Observable outcome of one run of the entry point: the process exit
code, the fatal diagnostic if one was printed, the number of GET requests
made to the API transport, and whether and how the mail hand-off went. -/
structure MainResult where
  exitCode : Nat
  fatalMsg : Option String
  networkCalls : Nat
  emailAttempted : Bool
  emailSent : Bool

/-- Embedding of the entry point (src/app.py lines 154-199): three fatal
configuration checks each exiting with status 1 and its own message, then
the five fetches in fixed order, the HTML rendering, and one send_email
call whose boolean result is discarded before the script ends with exit
status 0.  now and nowDate stand for the two formatted UTC timestamps the
source interpolates. -/
def main_run (env : String → Option String) (http : String → HttpOutcome)
    (smtp : SmtpOutcome) (now nowDate : String) : MainResult :=
  if ¬ pvTruthy (cfg_N2YO_API_KEY env) then
    ⟨1, some fatalMsgApiKey, 0, false, false⟩
  else if ¬ pvTruthy (cfg_RECEIVER_EMAIL env) then
    ⟨1, some fatalMsgReceiver, 0, false, false⟩
  else if ¬ (pvTruthy (cfg_SMTP_SERVER env) ∧ pvTruthy (cfg_SMTP_PORT env) ∧
             pvTruthy (cfg_SMTP_USERNAME env) ∧ pvTruthy (cfg_SMTP_PASSWORD env)) then
    ⟨1, some fatalMsgSmtp, 0, false, false⟩
  else
    let key := cfg_N2YO_API_KEY env
    let d1 := get_tle_data key http ISS_NORAD_ID
    let d2 := get_positions_data key http ISS_NORAD_ID OBSERVER_LAT OBSERVER_LNG OBSERVER_ALT 3
    let d3 := get_visual_passes_data key http ISS_NORAD_ID OBSERVER_LAT OBSERVER_LNG OBSERVER_ALT PASS_DAYS MIN_VISIBILITY_SECONDS
    let d4 := get_radio_passes_data key http ISS_NORAD_ID OBSERVER_LAT OBSERVER_LNG OBSERVER_ALT PASS_DAYS MIN_ELEVATION_DEGREES
    let d5 := get_whats_up_data key http OBSERVER_LAT OBSERVER_LNG OBSERVER_ALT SEARCH_RADIUS_DEGREES CATEGORY_ID
    let all_data := [("TLE Data (ISS)", d1.result),
                     ("Positions Data (ISS)", d2.result),
                     ("Visual Passes (ISS)", d3.result),
                     ("Radio Passes (ISS)", d4.result),
                     ("What\x27s Up", d5.result)]
    let email_body_html := format_data_as_html now all_data
    let email_subject := "N2YO Daily Satellite Report - " ++ nowDate
    let sent := send_email (PyVal.vStr email_subject) (PyVal.vStr email_body_html)
      (cfg_RECEIVER_EMAIL env) (cfg_SENDER_EMAIL env) (cfg_SMTP_SERVER env)
      (cfg_SMTP_PORT env) (cfg_SMTP_USERNAME env) (cfg_SMTP_PASSWORD env) smtp
    ⟨0, none,
     d1.getCalls + d2.getCalls + d3.getCalls + d4.getCalls + d5.getCalls,
     sent.connectionAttempted, sent.result⟩

/-- Claim C1: for every setting name, resolution first looks the name up
in the local file-based settings source if that source was loaded; if the
name is absent there or the source was not loaded, it looks the
upper-cased name up in the process environment; if still absent, it
returns the caller-supplied default unmodified, with no integer coercion
applied to the default. -/
theorem c1_config_resolution_order
    (fsrc : Option (String → Option String)) (env : String → Option String)
    (name : String) (default : PyVal) (coerceInt : Bool) :
    (∀ f raw, fsrc = some f → f name = some raw →
        resolve fsrc env name default coerceInt = coerceValue raw default coerceInt)
    ∧ (fileLookup fsrc name = none → ∀ raw, env name.toUpper = some raw →
        resolve fsrc env name default coerceInt = coerceValue raw default coerceInt)
    ∧ (fileLookup fsrc name = none → env name.toUpper = none →
        resolve fsrc env name default coerceInt = default) := by
  refine ⟨?_, ?_, ?_⟩
  · intro f raw hf hraw
    subst hf
    simp [resolve, fileLookup, hraw]
  · intro hfile raw henv
    simp [resolve, hfile, henv]
  · intro hfile henv
    simp [resolve, hfile, henv]

/-- Witness for claim C1: with no settings file loaded and an empty
environment, resolution of a setting requesting integer coercion returns
the string default untouched. -/
theorem c1_config_resolution_order_witness :
    resolve none (fun _ => none) "smtp_port" (PyVal.vStr "not an int") true =
      PyVal.vStr "not an int" :=
  (c1_config_resolution_order none (fun _ => none) "smtp_port"
    (PyVal.vStr "not an int") true).2.2 rfl rfl

/-- Claim C2 counterexample: the guard of send_email checks only six of
the eight arguments, so a call with an empty (falsy) subject and the six
checked fields set is not skipped: it attempts the connection and, with a
transport that accepts the session, returns true. -/
theorem c2_notifier_guard_counterexample :
    pvTruthy (PyVal.vStr "") = false ∧
    send_email (PyVal.vStr "") (PyVal.vStr "<html></html>")
        (PyVal.vStr "r@example.com") (PyVal.vStr "s@example.com")
        (PyVal.vStr "smtp.example.com") (PyVal.vInt 587)
        (PyVal.vStr "user") (PyVal.vStr "secret") SmtpOutcome.ok =
      ⟨true, true⟩ := by
  exact ⟨rfl, rfl⟩

/-- Claim C2 as amended: for every call to send_email in which any one of
the six checked arguments (recipient, sender, mail host, mail port,
username, password) is falsy/empty, send_email returns false without
attempting any connection to the mail transport; the subject and HTML
body are not part of the guard. -/
theorem c2_notifier_guard_amended (subject body_html receiver_email
    sender_email smtp_server smtp_port smtp_username smtp_password : PyVal)
    (smtp : SmtpOutcome)
    (h : pvTruthy receiver_email = false ∨ pvTruthy sender_email = false ∨
         pvTruthy smtp_server = false ∨ pvTruthy smtp_port = false ∨
         pvTruthy smtp_username = false ∨ pvTruthy smtp_password = false) :
    send_email subject body_html receiver_email sender_email smtp_server
        smtp_port smtp_username smtp_password smtp = ⟨false, false⟩ := by
  have hng : ¬ (pvTruthy receiver_email ∧ pvTruthy sender_email ∧
      pvTruthy smtp_server ∧ pvTruthy smtp_port ∧
      pvTruthy smtp_username ∧ pvTruthy smtp_password) := by
    rcases h with h | h | h | h | h | h <;> simp [h]
  simp [send_email, hng]

/-- Witness for the amended claim C2: an empty password makes send_email
return false without a connection attempt. -/
theorem c2_notifier_guard_amended_witness :
    send_email (PyVal.vStr "subject") (PyVal.vStr "<html></html>")
        (PyVal.vStr "r@example.com") (PyVal.vStr "s@example.com")
        (PyVal.vStr "smtp.example.com") (PyVal.vInt 587)
        (PyVal.vStr "user") (PyVal.vStr "") SmtpOutcome.ok =
      ⟨false, false⟩ :=
  c2_notifier_guard_amended _ _ _ _ _ _ _ _ _
    (Or.inr (Or.inr (Or.inr (Or.inr (Or.inr rfl)))))

/-- Claim C3: for every endpoint path, when the API key configuration
value is absent (falsy), fetch_api_data returns a failure descriptor
whose error field is the not-configured message and whose url field is
the endpoint path only, and performs no network call. -/
theorem c3_missing_api_key (apiKey : PyVal) (http : String → HttpOutcome)
    (endpoint_url : String) (h : pvTruthy apiKey = false) :
    fetch_api_data apiKey http endpoint_url =
      ⟨JValue.jobj [("error", JValue.jstr "N2YO_API_KEY is not configured."),
                    ("url", JValue.jstr endpoint_url)], 0⟩ := by
  simp [fetch_api_data, h]

/-- Witness for claim C3: with the key unset, the descriptor carries the
bare endpoint path and the transport saw zero GET requests. -/
theorem c3_missing_api_key_witness :
    fetch_api_data PyVal.vNone (fun _ => HttpOutcome.reqError "unused")
        "tle/25544" =
      ⟨JValue.jobj [("error", JValue.jstr "N2YO_API_KEY is not configured."),
                    ("url", JValue.jstr "tle/25544")], 0⟩ :=
  c3_missing_api_key PyVal.vNone (fun _ => HttpOutcome.reqError "unused")
    "tle/25544" rfl

/-- Claim C4: for every transport-level failure of the single GET request
(connection error, timeout, non-2xx status, all surfaced as a
RequestException), fetch_api_data catches the fault and returns a failure
descriptor whose error field equals the transport exception's message and
whose url field equals the fully composed URL including the API key; the
fault is never propagated. -/
theorem c4_transport_failure (apiKey : PyVal) (http : String → HttpOutcome)
    (endpoint_url msg : String) (hk : pvTruthy apiKey = true)
    (hhttp : http (full_url apiKey endpoint_url) = HttpOutcome.reqError msg) :
    fetch_api_data apiKey http endpoint_url =
      ⟨JValue.jobj [("error", JValue.jstr msg),
                    ("url", JValue.jstr (BASE_URL ++ endpoint_url ++
                      "&apiKey=" ++ pyStrVal apiKey))], 1⟩ := by
  have hc : ¬ ¬ (pvTruthy apiKey = true) := by simp [hk]
  unfold fetch_api_data
  rw [if_neg hc, hhttp]
  simp [full_url]

/-- Witness for claim C4: a simulated timeout on the composed URL becomes
a descriptor carrying the transport message and the key-bearing URL. -/
theorem c4_transport_failure_witness :
    fetch_api_data (PyVal.vStr "KEY123")
        (fun _ => HttpOutcome.reqError "connection timed out") "tle/25544" =
      ⟨JValue.jobj [("error", JValue.jstr "connection timed out"),
                    ("url", JValue.jstr (BASE_URL ++ "tle/25544" ++
                      "&apiKey=" ++ pyStrVal (PyVal.vStr "KEY123")))], 1⟩ :=
  c4_transport_failure (PyVal.vStr "KEY123")
    (fun _ => HttpOutcome.reqError "connection timed out") "tle/25544"
    "connection timed out" rfl rfl

/-- Claim C5: for every response body that does not parse as JSON,
fetch_api_data returns a failure descriptor carrying the parse error
message in the error field (prefixed with the words JSON Decode Error),
the fully composed URL in the url field, and the raw response text under
the content field. -/
theorem c5_parse_failure (apiKey : PyVal) (http : String → HttpOutcome)
    (endpoint_url msg text : String) (hk : pvTruthy apiKey = true)
    (hhttp : http (full_url apiKey endpoint_url) =
      HttpOutcome.parseError msg text) :
    fetch_api_data apiKey http endpoint_url =
      ⟨JValue.jobj [("error", JValue.jstr ("JSON Decode Error: " ++ msg)),
                    ("content", JValue.jstr text),
                    ("url", JValue.jstr (BASE_URL ++ endpoint_url ++
                      "&apiKey=" ++ pyStrVal apiKey))], 1⟩ := by
  have hc : ¬ ¬ (pvTruthy apiKey = true) := by simp [hk]
  unfold fetch_api_data
  rw [if_neg hc, hhttp]
  simp [full_url]

/-- Witness for claim C5: a truncated body is reported with its parse
error, the raw text under content, and the fully composed URL. -/
theorem c5_parse_failure_witness :
    fetch_api_data (PyVal.vStr "KEY123")
        (fun _ => HttpOutcome.parseError "Expecting value" "\x7binvalid")
        "tle/25544" =
      ⟨JValue.jobj [("error",
                      JValue.jstr ("JSON Decode Error: " ++ "Expecting value")),
                    ("content", JValue.jstr "\x7binvalid"),
                    ("url", JValue.jstr (BASE_URL ++ "tle/25544" ++
                      "&apiKey=" ++ pyStrVal (PyVal.vStr "KEY123")))], 1⟩ :=
  c5_parse_failure (PyVal.vStr "KEY123")
    (fun _ => HttpOutcome.parseError "Expecting value" "\x7binvalid")
    "tle/25544" "Expecting value" "\x7binvalid" rfl rfl

/-- The entry point under a falsy API key: status 1, first diagnostic, no
network or mail activity. -/
theorem mainRun_missing_api (env : String → Option String)
    (http : String → HttpOutcome) (smtp : SmtpOutcome) (now nowDate : String)
    (h : pvTruthy (cfg_N2YO_API_KEY env) = false) :
    main_run env http smtp now nowDate =
      ⟨1, some fatalMsgApiKey, 0, false, false⟩ := by
  simp [main_run, h]

/-- The entry point under a truthy API key and falsy recipient: status 1,
second diagnostic, no network or mail activity. -/
theorem mainRun_missing_receiver (env : String → Option String)
    (http : String → HttpOutcome) (smtp : SmtpOutcome) (now nowDate : String)
    (hA : pvTruthy (cfg_N2YO_API_KEY env) = true)
    (hR : pvTruthy (cfg_RECEIVER_EMAIL env) = false) :
    main_run env http smtp now nowDate =
      ⟨1, some fatalMsgReceiver, 0, false, false⟩ := by
  simp [main_run, hA, hR]

/-- The entry point under truthy API key and recipient but an incomplete
SMTP quadruple: status 1, third diagnostic, no network or mail
activity. -/
theorem mainRun_missing_smtp (env : String → Option String)
    (http : String → HttpOutcome) (smtp : SmtpOutcome) (now nowDate : String)
    (hA : pvTruthy (cfg_N2YO_API_KEY env) = true)
    (hR : pvTruthy (cfg_RECEIVER_EMAIL env) = true)
    (hS : ¬ (pvTruthy (cfg_SMTP_SERVER env) = true ∧
             pvTruthy (cfg_SMTP_PORT env) = true ∧
             pvTruthy (cfg_SMTP_USERNAME env) = true ∧
             pvTruthy (cfg_SMTP_PASSWORD env) = true)) :
    main_run env http smtp now nowDate =
      ⟨1, some fatalMsgSmtp, 0, false, false⟩ := by
  simp only [main_run, hA, hR]
  rw [if_neg (by simp), if_neg (by simp), if_pos hS]

/-- The entry point with complete mandatory configuration: status 0 and no
fatal diagnostic, whatever the transports do. -/
theorem mainRun_complete (env : String → Option String)
    (http : String → HttpOutcome) (smtp : SmtpOutcome) (now nowDate : String)
    (hA : pvTruthy (cfg_N2YO_API_KEY env) = true)
    (hR : pvTruthy (cfg_RECEIVER_EMAIL env) = true)
    (hS : pvTruthy (cfg_SMTP_SERVER env) = true ∧
          pvTruthy (cfg_SMTP_PORT env) = true ∧
          pvTruthy (cfg_SMTP_USERNAME env) = true ∧
          pvTruthy (cfg_SMTP_PASSWORD env) = true) :
    (main_run env http smtp now nowDate).exitCode = 0 ∧
    (main_run env http smtp now nowDate).fatalMsg = none := by
  simp only [main_run, hA, hR]
  rw [if_neg (by simp), if_neg (by simp), if_neg (by simp [hS.1, hS.2.1, hS.2.2.1, hS.2.2.2])]
  exact ⟨rfl, rfl⟩

/-- Claim C6: the entry point exits with status 1 before any network
activity if and only if mandatory configuration is missing, tested by
three distinct checks each with its own message (API key, recipient, the
four SMTP settings); otherwise it exits with status 0 regardless of the
mail transport's outcome, never inspecting the Notifier's boolean
result. -/
theorem c6_entry_point_exit_status (env : String → Option String)
    (http : String → HttpOutcome) (smtp : SmtpOutcome) (now nowDate : String) :
    ((main_run env http smtp now nowDate).exitCode = 1 ↔ configMissing env = true)
    ∧ ((main_run env http smtp now nowDate).exitCode = 1 ∨
       (main_run env http smtp now nowDate).exitCode = 0)
    ∧ ((main_run env http smtp now nowDate).exitCode = 1 →
        (main_run env http smtp now nowDate).networkCalls = 0 ∧
        (main_run env http smtp now nowDate).emailAttempted = false)
    ∧ (∀ smtp2, (main_run env http smtp2 now nowDate).exitCode =
        (main_run env http smtp now nowDate).exitCode)
    ∧ (pvTruthy (cfg_N2YO_API_KEY env) = false →
        (main_run env http smtp now nowDate).fatalMsg = some fatalMsgApiKey)
    ∧ (pvTruthy (cfg_N2YO_API_KEY env) = true →
       pvTruthy (cfg_RECEIVER_EMAIL env) = false →
        (main_run env http smtp now nowDate).fatalMsg = some fatalMsgReceiver)
    ∧ (pvTruthy (cfg_N2YO_API_KEY env) = true →
       pvTruthy (cfg_RECEIVER_EMAIL env) = true →
       ¬ (pvTruthy (cfg_SMTP_SERVER env) = true ∧
          pvTruthy (cfg_SMTP_PORT env) = true ∧
          pvTruthy (cfg_SMTP_USERNAME env) = true ∧
          pvTruthy (cfg_SMTP_PASSWORD env) = true) →
        (main_run env http smtp now nowDate).fatalMsg = some fatalMsgSmtp)
    ∧ (fatalMsgApiKey ≠ fatalMsgReceiver ∧ fatalMsgApiKey ≠ fatalMsgSmtp ∧
       fatalMsgReceiver ≠ fatalMsgSmtp) := by
  have hd : fatalMsgApiKey ≠ fatalMsgReceiver ∧ fatalMsgApiKey ≠ fatalMsgSmtp ∧
      fatalMsgReceiver ≠ fatalMsgSmtp := by
    refine ⟨?_, ?_, ?_⟩ <;> decide
  by_cases hA : pvTruthy (cfg_N2YO_API_KEY env) = true
  · by_cases hR : pvTruthy (cfg_RECEIVER_EMAIL env) = true
    · by_cases hS : pvTruthy (cfg_SMTP_SERVER env) = true ∧
          pvTruthy (cfg_SMTP_PORT env) = true ∧
          pvTruthy (cfg_SMTP_USERNAME env) = true ∧
          pvTruthy (cfg_SMTP_PASSWORD env) = true
      · have h0 : ∀ s2 : SmtpOutcome,
            (main_run env http s2 now nowDate).exitCode = 0 ∧
            (main_run env http s2 now nowDate).fatalMsg = none :=
          fun s2 => mainRun_complete env http s2 now nowDate hA hR hS
        have hmiss : configMissing env = false := by
          simp [configMissing, hA, hR, hS.1, hS.2.1, hS.2.2.1, hS.2.2.2]
        refine ⟨?_, ?_, ?_, ?_, ?_, ?_, ?_, hd⟩
        · rw [(h0 smtp).1, hmiss]
          constructor
          · intro h1; cases h1
          · intro h1; cases h1
        · exact Or.inr (h0 smtp).1
        · intro h1; rw [(h0 smtp).1] at h1; cases h1
        · intro s2; rw [(h0 s2).1, (h0 smtp).1]
        · intro h; rw [h] at hA; cases hA
        · intro _ h; rw [h] at hR; cases hR
        · intro _ _ h; exact absurd hS h
      · have hm : ∀ s2 : SmtpOutcome, main_run env http s2 now nowDate =
            ⟨1, some fatalMsgSmtp, 0, false, false⟩ :=
          fun s2 => mainRun_missing_smtp env http s2 now nowDate hA hR hS
        have hand : (pvTruthy (cfg_SMTP_SERVER env) &&
            pvTruthy (cfg_SMTP_PORT env) && pvTruthy (cfg_SMTP_USERNAME env) &&
            pvTruthy (cfg_SMTP_PASSWORD env)) = false := by
          rw [Bool.eq_false_iff]
          intro hcontra
          exact hS (by simpa [Bool.and_eq_true, and_assoc] using hcontra)
        have hmiss : configMissing env = true := by
          simp [configMissing, hand]
        refine ⟨?_, ?_, ?_, ?_, ?_, ?_, ?_, hd⟩
        · rw [hm smtp, hmiss]; simp
        · exact Or.inl (by rw [hm smtp])
        · intro _; rw [hm smtp]; exact ⟨rfl, rfl⟩
        · intro s2; rw [hm s2, hm smtp]
        · intro h; rw [h] at hA; cases hA
        · intro _ h; rw [h] at hR; cases hR
        · intro _ _ _; rw [hm smtp]
    · have hR2 : pvTruthy (cfg_RECEIVER_EMAIL env) = false := by simpa using hR
      have hm : ∀ s2 : SmtpOutcome, main_run env http s2 now nowDate =
          ⟨1, some fatalMsgReceiver, 0, false, false⟩ :=
        fun s2 => mainRun_missing_receiver env http s2 now nowDate hA hR2
      have hmiss : configMissing env = true := by
        simp [configMissing, hR2]
      refine ⟨?_, ?_, ?_, ?_, ?_, ?_, ?_, hd⟩
      · rw [hm smtp, hmiss]; simp
      · exact Or.inl (by rw [hm smtp])
      · intro _; rw [hm smtp]; exact ⟨rfl, rfl⟩
      · intro s2; rw [hm s2, hm smtp]
      · intro h; rw [h] at hA; cases hA
      · intro _ _; rw [hm smtp]
      · intro _ h _; rw [h] at hR2; cases hR2
  · have hA2 : pvTruthy (cfg_N2YO_API_KEY env) = false := by simpa using hA
    have hm : ∀ s2 : SmtpOutcome, main_run env http s2 now nowDate =
        ⟨1, some fatalMsgApiKey, 0, false, false⟩ :=
      fun s2 => mainRun_missing_api env http s2 now nowDate hA2
    have hmiss : configMissing env = true := by
      simp [configMissing, hA2]
    refine ⟨?_, ?_, ?_, ?_, ?_, ?_, ?_, hd⟩
    · rw [hm smtp, hmiss]; simp
    · exact Or.inl (by rw [hm smtp])
    · intro _; rw [hm smtp]; exact ⟨rfl, rfl⟩
    · intro s2; rw [hm s2, hm smtp]
    · intro _; rw [hm smtp]
    · intro h _; rw [h] at hA2; cases hA2
    · intro h _ _; rw [h] at hA2; cases hA2

/-- Witness for claim C6: with an empty environment the run exits with
status 1, having made no network call, printing the API-key message. -/
theorem c6_entry_point_exit_status_witness :
    (main_run (fun _ => none) (fun _ => HttpOutcome.reqError "unused")
      SmtpOutcome.ok "2026-10-12 00:00:00 UTC" "2026-10-12").exitCode = 1 :=
  (c6_entry_point_exit_status (fun _ => none)
    (fun _ => HttpOutcome.reqError "unused") SmtpOutcome.ok
    "2026-10-12 00:00:00 UTC" "2026-10-12").1.mpr rfl

/-- Claim C7: for each (title, result) pair of the report, the formatter
emits a subsection heading with the title and then exactly one of three
bodies: for a dict carrying an error key, the error message plus, only
when the corresponding field is present, the URL and/or raw content each
as a separate paragraph; for a non-falsy payload, the payload
pretty-printed with 2-space indent inside a preformatted block; otherwise
the fixed placeholder line. -/
theorem c7_section_trichotomy (title : String) (data : JValue) :
    ∃ body, format_section title data = "<h2>" ++ title ++ "</h2>" ++ body ∧
      ((errKeyed data = true ∧
        body =
          "<p class=\x27error\x27>Error fetching data: " ++
            pyStr (jget (objFields data) "error") ++ "</p>" ++
          (match lookupKey (objFields data) "url" with
           | some u => "<p>URL: " ++ pyStr u ++ "</p>"
           | none => "") ++
          (match lookupKey (objFields data) "content" with
           | some c => "<p>Content: <pre>" ++ pyStr c ++ "</pre></p>"
           | none => ""))
      ∨ (errKeyed data = false ∧ jtruthy data = true ∧
         body = "<pre>" ++ json_dumps_i2 data ++ "</pre>")
      ∨ (errKeyed data = false ∧ jtruthy data = false ∧
         body = "<p>No data received or an unknown error occurred.</p>")) := by
  refine ⟨sectionBody data, rfl, ?_⟩
  by_cases he : errKeyed data = true
  · exact Or.inl ⟨he, by simp [sectionBody, he, failureBody]⟩
  · have he2 : errKeyed data = false := by simpa using he
    by_cases ht : jtruthy data = true
    · exact Or.inr (Or.inl ⟨he2, ht, by simp [sectionBody, he2, ht]⟩)
    · have ht2 : jtruthy data = false := by simpa using ht
      exact Or.inr (Or.inr ⟨he2, ht2, by simp [sectionBody, he2, ht2]⟩)

/-- Claim C8: the order of section headings in the formatter's output
equals the insertion order of the input mapping: for sections inserted as
A, B, C, the rendered document is a concatenation in which A's heading
occurs before B's, which occurs before C's. -/
theorem c8_section_order (now tA tB tC : String) (dA dB dC : JValue) :
    ∃ p q r s,
      format_data_as_html now [(tA, dA), (tB, dB), (tC, dC)] =
        p ++ ("<h2>" ++ tA ++ "</h2>") ++ q ++ ("<h2>" ++ tB ++ "</h2>") ++
          r ++ ("<h2>" ++ tC ++ "</h2>") ++ s := by
  refine ⟨htmlStyle ++ h1Heading now, sectionBody dA, sectionBody dB,
          sectionBody dC ++ "</body></html>", ?_⟩
  simp [format_data_as_html, joinSections, format_section,
        String.append_assoc, String.append_empty]

/-- Claim C9: the formatter classifies a section value as a failure solely
by it being a dict containing the key error, so a successful payload that
happens to be such a dict is rendered through the failure branch rather
than as a pretty-printed payload. -/
theorem c9_error_key_classification (title : String)
    (fields : List (String × JValue)) (h : hasKey fields "error" = true) :
    format_section title (JValue.jobj fields) =
      "<h2>" ++ title ++ "</h2>" ++ failureBody fields := by
  simp [format_section, sectionBody, errKeyed, objFields, h]

/-- Witness for claim C9: a payload-shaped dict that contains an error key
with a benign value is still rendered through the failure branch. -/
theorem c9_error_key_classification_witness :
    format_section "TLE Data (ISS)"
        (JValue.jobj [("error", JValue.jstr "none"),
                      ("satname", JValue.jstr "SPACE STATION")]) =
      "<h2>" ++ "TLE Data (ISS)" ++ "</h2>" ++
        failureBody [("error", JValue.jstr "none"),
                     ("satname", JValue.jstr "SPACE STATION")] :=
  c9_error_key_classification "TLE Data (ISS)"
    [("error", JValue.jstr "none"), ("satname", JValue.jstr "SPACE STATION")]
    rfl

/-- Substring occurrence: t occurs verbatim inside s. -/
def strContains (s t : String) : Prop := ∃ p q, s = p ++ (t ++ q)

/-- Rendering distributes over concatenation of reports. -/
theorem joinSections_append (xs ys : List (String × JValue)) :
    joinSections (xs ++ ys) = joinSections xs ++ joinSections ys := by
  induction xs with
  | nil => simp [joinSections]
  | cons hd tl ih =>
    cases hd
    simp [joinSections, ih, String.append_assoc]

/-- A successful key lookup means the key is present. -/
theorem hasKey_of_lookupKey (fields : List (String × JValue)) (k : String)
    (v : JValue) (h : lookupKey fields k = some v) : hasKey fields k = true := by
  simp [hasKey, h]

/-- Claim C10: the formatter performs no HTML escaping: every section
title appears verbatim as a substring of the returned document, and for a
failure descriptor the error message, URL and raw content strings appear
verbatim as well, so markup contained in them is emitted as live
markup. -/
theorem c10_no_html_escaping (now : String) (pre post : List (String × JValue))
    (title : String) (data : JValue) :
    strContains (format_data_as_html now (pre ++ (title, data) :: post)) title
    ∧ (∀ fs e, data = JValue.jobj fs →
        lookupKey fs "error" = some (JValue.jstr e) →
        strContains (format_data_as_html now (pre ++ (title, data) :: post)) e)
    ∧ (∀ fs u, data = JValue.jobj fs → hasKey fs "error" = true →
        lookupKey fs "url" = some (JValue.jstr u) →
        strContains (format_data_as_html now (pre ++ (title, data) :: post)) u)
    ∧ (∀ fs c, data = JValue.jobj fs → hasKey fs "error" = true →
        lookupKey fs "content" = some (JValue.jstr c) →
        strContains (format_data_as_html now (pre ++ (title, data) :: post)) c) := by
  refine ⟨?_, ?_, ?_, ?_⟩
  · refine ⟨htmlStyle ++ h1Heading now ++ joinSections pre ++ "<h2>",
            "</h2>" ++ sectionBody data ++ joinSections post ++ "</body></html>", ?_⟩
    simp [format_data_as_html, joinSections_append, joinSections,
          format_section, String.append_assoc]
  · intro fs e hd he
    subst hd
    have hk : hasKey fs "error" = true := hasKey_of_lookupKey fs "error" _ he
    have hbody : sectionBody (JValue.jobj fs) = failureBody fs := by
      simp [sectionBody, errKeyed, objFields, hk]
    refine ⟨htmlStyle ++ h1Heading now ++ joinSections pre ++ "<h2>" ++ title ++
              "</h2>" ++ "<p class=\x27error\x27>Error fetching data: ",
            "</p>" ++
              (match lookupKey fs "url" with
               | some u => "<p>URL: " ++ pyStr u ++ "</p>"
               | none => "") ++
              (match lookupKey fs "content" with
               | some c => "<p>Content: <pre>" ++ pyStr c ++ "</pre></p>"
               | none => "") ++
              joinSections post ++ "</body></html>", ?_⟩
    simp [format_data_as_html, joinSections_append, joinSections,
          format_section, hbody, failureBody, jget, he, pyStr,
          String.append_assoc]
    rfl
  · intro fs u hd hk hu
    subst hd
    have hbody : sectionBody (JValue.jobj fs) = failureBody fs := by
      simp [sectionBody, errKeyed, objFields, hk]
    refine ⟨htmlStyle ++ h1Heading now ++ joinSections pre ++ "<h2>" ++ title ++
              "</h2>" ++ "<p class=\x27error\x27>Error fetching data: " ++
              pyStr (jget fs "error") ++ "</p>" ++ "<p>URL: ",
            "</p>" ++
              (match lookupKey fs "content" with
               | some c => "<p>Content: <pre>" ++ pyStr c ++ "</pre></p>"
               | none => "") ++
              joinSections post ++ "</body></html>", ?_⟩
    simp [format_data_as_html, joinSections_append, joinSections,
          format_section, hbody, failureBody, hu, pyStr,
          String.append_assoc]
    rfl
  · intro fs c hd hk hc
    subst hd
    have hbody : sectionBody (JValue.jobj fs) = failureBody fs := by
      simp [sectionBody, errKeyed, objFields, hk]
    refine ⟨htmlStyle ++ h1Heading now ++ joinSections pre ++ "<h2>" ++ title ++
              "</h2>" ++ "<p class=\x27error\x27>Error fetching data: " ++
              pyStr (jget fs "error") ++ "</p>" ++
              (match lookupKey fs "url" with
               | some u => "<p>URL: " ++ pyStr u ++ "</p>"
               | none => "") ++ "<p>Content: <pre>",
            "</pre></p>" ++ joinSections post ++ "</body></html>", ?_⟩
    simp [format_data_as_html, joinSections_append, joinSections,
          format_section, hbody, failureBody, hc, pyStr,
          String.append_assoc]
    rfl

/-- Witness for claim C10: markup placed in the title, error message, URL
and raw content of one failure section occurs verbatim in the rendered
document. -/
theorem c10_no_html_escaping_witness :
    strContains (format_data_as_html "now"
        [("<b>Title</b>",
          JValue.jobj [("error", JValue.jstr "<script>alert(1)</script>"),
                       ("url", JValue.jstr "http://u?a=<i>"),
                       ("content", JValue.jstr "<div>raw</div>")])])
      "<b>Title</b>" ∧
    strContains (format_data_as_html "now"
        [("<b>Title</b>",
          JValue.jobj [("error", JValue.jstr "<script>alert(1)</script>"),
                       ("url", JValue.jstr "http://u?a=<i>"),
                       ("content", JValue.jstr "<div>raw</div>")])])
      "<script>alert(1)</script>" ∧
    strContains (format_data_as_html "now"
        [("<b>Title</b>",
          JValue.jobj [("error", JValue.jstr "<script>alert(1)</script>"),
                       ("url", JValue.jstr "http://u?a=<i>"),
                       ("content", JValue.jstr "<div>raw</div>")])])
      "http://u?a=<i>" ∧
    strContains (format_data_as_html "now"
        [("<b>Title</b>",
          JValue.jobj [("error", JValue.jstr "<script>alert(1)</script>"),
                       ("url", JValue.jstr "http://u?a=<i>"),
                       ("content", JValue.jstr "<div>raw</div>")])])
      "<div>raw</div>" :=
  ⟨(c10_no_html_escaping "now" [] []
      "<b>Title</b>"
      (JValue.jobj [("error", JValue.jstr "<script>alert(1)</script>"),
                    ("url", JValue.jstr "http://u?a=<i>"),
                    ("content", JValue.jstr "<div>raw</div>")])).1,
   (c10_no_html_escaping "now" [] []
      "<b>Title</b>"
      (JValue.jobj [("error", JValue.jstr "<script>alert(1)</script>"),
                    ("url", JValue.jstr "http://u?a=<i>"),
                    ("content", JValue.jstr "<div>raw</div>")])).2.1
      _ _ rfl rfl,
   (c10_no_html_escaping "now" [] []
      "<b>Title</b>"
      (JValue.jobj [("error", JValue.jstr "<script>alert(1)</script>"),
                    ("url", JValue.jstr "http://u?a=<i>"),
                    ("content", JValue.jstr "<div>raw</div>")])).2.2.1
      _ _ rfl rfl rfl,
   (c10_no_html_escaping "now" [] []
      "<b>Title</b>"
      (JValue.jobj [("error", JValue.jstr "<script>alert(1)</script>"),
                    ("url", JValue.jstr "http://u?a=<i>"),
                    ("content", JValue.jstr "<div>raw</div>")])).2.2.2
      _ _ rfl rfl rfl⟩

/-- With no settings file loaded, the spec-level resolver coincides with
the env-only get_config_value of src/app.py. -/
theorem resolve_none_eq_get_config_value (env : String → Option String)
    (name : String) (default : PyVal) (coerceInt : Bool) :
    resolve none env name default coerceInt =
      get_config_value env name default coerceInt := by
  cases h : env name.toUpper <;>
    simp [resolve, fileLookup, get_config_value, coerceValue, h]
